import Mathlib

/-!
Verification development for the diriyah-brain-ai repository.

The repository ships React frontends (AdminPanel, App chat, AlertsPanel,
static dashboard script) together with a specification of a role/project
scoped access-control core.  The backend core (Access Evaluator, Alert and
Content Filter, User Directory) is called from the frontend code but its
implementation is not part of the source tree, so those components are
modelled here from the specification; the frontend behaviours (catalog
constants, bulk-update guard, alerts-panel effect guard, chat demo-alert
injection) are embedded directly from the source files.
-/

namespace Diriyah

/-- Data-access scope tags, the closed enumeration from the spec catalog
(`all`, `operational`, `technical`, `commercial`, `financial`). -/
inductive Scope where
  | all
  | operational
  | technical
  | commercial
  | financial
deriving DecidableEq

/-- Action verbs from the spec catalog (`read`, `write`, `edit`, `delete`,
`admin`). -/
inductive ActionV where
  | read
  | write
  | edit
  | delete
  | admin
deriving DecidableEq

/-- Document-type tags from the spec catalog. -/
inductive DocType where
  | boq
  | schedules
  | contracts
  | rfis
  | ncrs
  | moms
  | technical_drawings
  | financials
  | quotes
deriving DecidableEq

/-- A role bundles allowed document types, data-access scopes and actions. -/
structure Role where
  name : String
  description : String
  allowedDocuments : List DocType
  dataAccess : List Scope
  actions : List ActionV
deriving DecidableEq

/-- Project membership of a user: either the "all" sentinel or an explicit
list of project ids. -/
inductive Membership where
  | allProjects
  | listed (ps : List String)
deriving DecidableEq

/-- A user account: one role, a project membership set, an active flag. -/
structure User where
  id : String
  name : String
  email : String
  role : Role
  projects : Membership
  active : Bool
deriving DecidableEq

/-- A resource descriptor as consumed by the evaluator: optional permission
tags plus the requested action and the scope-tagged fields. -/
structure Resource where
  projectId : Option String
  documentType : Option DocType
  requiredScope : Option Scope
  action : ActionV
  fields : List (String × Scope)
deriving DecidableEq

/-- Deny reasons, in the evaluator's fixed order. -/
inductive Reason where
  | InactiveUser
  | ProjectNotAccessible
  | DocumentTypeForbidden
  | ScopeForbidden
  | ActionForbidden
deriving DecidableEq

/-- Result of the evaluator: allow with redaction instructions, or deny with
a reason. -/
inductive Decision where
  | allow (redact : List String)
  | deny (reason : Reason)
deriving DecidableEq

/-- Modelled from the spec: `expandScope` — the `all` scope implies every
other scope (spec design note on explicit expansion functions). -/
def expandScope (s : List Scope) : List Scope :=
  if Scope.all ∈ s then
    [Scope.all, Scope.operational, Scope.technical, Scope.commercial, Scope.financial]
  else s

/-- Modelled from the spec: `expandAction` — the `admin` action implies every
other action. -/
def expandAction (a : List ActionV) : List ActionV :=
  if ActionV.admin ∈ a then
    [ActionV.read, ActionV.write, ActionV.edit, ActionV.delete, ActionV.admin]
  else a

/-- Check 1 of the evaluator: the user is inactive. -/
def chkInactive (u : User) : Bool :=
  !u.active

/-- Check 2 of the evaluator: the resource carries a project id, the user's
membership is not the "all" sentinel, and the project id is not a member. -/
def chkProject (u : User) (r : Resource) : Bool :=
  match r.projectId, u.projects with
  | some pid, Membership.listed ps => !(decide (pid ∈ ps))
  | _, _ => false

/-- Check 3 of the evaluator: the resource carries a document type outside
the role's allowed documents. -/
def chkDoc (u : User) (r : Resource) : Bool :=
  match r.documentType with
  | some d => !(decide (d ∈ u.role.allowedDocuments))
  | none => false

/-- The user's scope mask: the role's data access with `all` expanded. -/
def scopeMask (u : User) : List Scope :=
  expandScope u.role.dataAccess

/-- Modelled from the spec: an untagged scope is treated as the most
restrictive scope `financial` (fail-closed default for untagged items). -/
def effRequiredScope (r : Resource) : Scope :=
  r.requiredScope.getD Scope.financial

/-- Modelled from the spec: a fully untagged resource (no document type and
no required scope) demands the `admin` action, so it is denied for every
non-admin role (fail-closed default). -/
def effAction (r : Resource) : ActionV :=
  if r.documentType = none ∧ r.requiredScope = none then ActionV.admin else r.action

/-- Check 4 of the evaluator: the required scope is not covered by the
user's scope mask. -/
def chkScope (u : User) (r : Resource) : Bool :=
  !(decide (effRequiredScope r ∈ scopeMask u))

/-- Check 5 of the evaluator: the requested action is not covered by the
role's actions with `admin` expanded. -/
def chkAction (u : User) (r : Resource) : Bool :=
  !(decide (effAction r ∈ expandAction u.role.actions))

/-- Redaction instructions: names of resource fields tagged with a scope the
user's scope mask does not cover. -/
def redactList (u : User) (r : Resource) : List String :=
  (r.fields.filter (fun f => !(decide (f.2 ∈ scopeMask u)))).map Prod.fst

/-- Modelled from the spec: the Access Evaluator — the pure decision
function of section 4.4, running checks 1–5 in the fixed order and returning
on the first failing check, else allowing with redaction instructions.  The
evaluator itself is not part of the shipped source tree. -/
def evaluate (u : User) (r : Resource) : Decision :=
  if chkInactive u then Decision.deny Reason.InactiveUser
  else if chkProject u r then Decision.deny Reason.ProjectNotAccessible
  else if chkDoc u r then Decision.deny Reason.DocumentTypeForbidden
  else if chkScope u r then Decision.deny Reason.ScopeForbidden
  else if chkAction u r then Decision.deny Reason.ActionForbidden
  else Decision.allow (redactList u r)

/-- True when a decision is an allow. -/
def isAllowed : Decision → Bool
  | Decision.allow _ => true
  | Decision.deny _ => false

/-- The redaction instructions carried by a decision (empty on deny). -/
def redactOf : Decision → List String
  | Decision.allow red => red
  | Decision.deny _ => []

/-- Removes the fields named by the redaction instructions from a resource. -/
def applyRedact (red : List String) (r : Resource) : Resource :=
  { r with fields := r.fields.filter (fun f => !(decide (f.1 ∈ red))) }

/-- Modelled from the spec: the Alert/Content Filter of section 4.5 —
applies `evaluate` to each candidate, drops denied ones, applies field
redaction on allowed ones.  Not part of the shipped source tree. -/
def filterResources (u : User) : List Resource → List Resource
  | [] => []
  | c :: cs =>
    match evaluate u c with
    | Decision.allow red => applyRedact red c :: filterResources u cs
    | Decision.deny _ => filterResources u cs

/-- The five evaluator checks as a list of booleans, in evaluation order. -/
def checksList (u : User) (r : Resource) : List Bool :=
  [chkInactive u, chkProject u r, chkDoc u r, chkScope u r, chkAction u r]

/-- The deny reasons in the same fixed order as `checksList`. -/
def reasonsList : List Reason :=
  [Reason.InactiveUser, Reason.ProjectNotAccessible, Reason.DocumentTypeForbidden,
   Reason.ScopeForbidden, Reason.ActionForbidden]

/-- The reason of the first failing check, when some check fails. -/
def firstFail (u : User) (r : Resource) : Option Reason :=
  (((checksList u r).zip reasonsList).find? (fun p => p.1)).map Prod.snd

/-- A stored user record of the User Directory, referencing its role by
name, as the admin endpoints exchange it. -/
structure DirUser where
  username : String
  email : String
  role : String
  projects : List String
  active : Bool
deriving DecidableEq

/-- The persistent state the User Directory operates on: the known role
names, the project registry and the user records. -/
structure Directory where
  roles : List String
  projects : List String
  users : List DirUser
deriving DecidableEq

/-- Error outcomes of the User Directory operations. -/
inductive DirErr where
  | RoleNotFound
  | DuplicateEmail
  | InvalidProject
  | NotFound
deriving DecidableEq

/-- Modelled from the spec: `createUser` of section 4.3 — requires an
existing role name (`RoleNotFound` otherwise), fails with `DuplicateEmail`
on email collision, validates the project list against the registry unless
the "all" sentinel is used; on failure the directory is unchanged.  The
directory backend is not part of the shipped source tree. -/
def createUser (s : DirUser) (d : Directory) : Directory × Option DirErr :=
  if !(decide (s.role ∈ d.roles)) then (d, some DirErr.RoleNotFound)
  else if d.users.any (fun u => u.email == s.email) then (d, some DirErr.DuplicateEmail)
  else if !(decide ("all" ∈ s.projects)) && s.projects.any (fun p => !(decide (p ∈ d.projects))) then
    (d, some DirErr.InvalidProject)
  else ({ d with users := d.users ++ [s] }, none)

/-- A partial update of a user record, as sent by the admin endpoints. -/
structure Patch where
  email : Option String
  role : Option String
  projects : Option (List String)
  active : Option Bool
deriving DecidableEq

/-- Applies a patch to one user record, field by field. -/
def applyPatch (p : Patch) (u : DirUser) : DirUser :=
  { u with
    email := p.email.getD u.email
    role := p.role.getD u.role
    projects := p.projects.getD u.projects
    active := p.active.getD u.active }

/-- Modelled from the spec: `updateUser` of section 4.3 — partial update of
one user; fails with `NotFound` on an unknown id and with `RoleNotFound`
when the patch names a role missing from the registry; on failure the
directory is unchanged. -/
def updateUser (username : String) (p : Patch) (d : Directory) : Directory × Option DirErr :=
  if !(d.users.any (fun u => u.username == username)) then (d, some DirErr.NotFound)
  else if (match p.role with
           | some rn => !(decide (rn ∈ d.roles))
           | none => false) then (d, some DirErr.RoleNotFound)
  else ({ d with users := d.users.map (fun u => if u.username == username then applyPatch p u else u) },
        none)

/-- Modelled from the spec: `bulkUpdate` of section 4.3 — applies
`updateUser` per id in sequence and returns a per-id outcome list; a failing
id leaves the directory untouched for that step while the other ids'
updates stand (best-effort bulk edit with a report). -/
def bulkUpdate (ids : List String) (p : Patch) (d : Directory) : Directory × List (String × Option DirErr) :=
  match ids with
  | [] => (d, [])
  | i :: rest =>
    let r := updateUser i p d
    let tail := bulkUpdate rest p r.1
    (tail.1, (i, r.2) :: tail.2)

/-- The document-type catalog, from the `documentTypes` constant of the
AdminPanel source. -/
def documentTypes : List String :=
  ["boq", "schedules", "contracts", "rfis", "ncrs", "moms",
   "technical_drawings", "financials", "quotes"]

/-- The data-access catalog, from the `dataAccessTypes` constant of the
AdminPanel source. -/
def dataAccessTypes : List String :=
  ["all", "operational", "technical", "commercial", "financial"]

/-- The action catalog, from the `permissionTypes` constant of the
AdminPanel source. -/
def permissionTypes : List String :=
  ["read", "write", "edit", "delete", "admin"]

/-- Modelled from the spec: `isValidDocumentType` of section 4.1 —
membership in the fixed document-type catalog; unknown tags are never
valid. -/
def isValidDocumentType (tag : String) : Bool :=
  decide (tag ∈ documentTypes)

/-- Modelled from the spec: `isValidScope` of section 4.1 — membership in
the fixed data-access catalog. -/
def isValidScope (tag : String) : Bool :=
  decide (tag ∈ dataAccessTypes)

/-- Modelled from the spec: `isValidAction` of section 4.1 — membership in
the fixed action catalog. -/
def isValidAction (tag : String) : Bool :=
  decide (tag ∈ permissionTypes)

/-- State of the AlertsPanel component that the alerts-fetch effect reads:
the filter selects and the loaded user record.  Initial values from the
`useState` calls of the source. -/
structure APState where
  category : String
  projectId : String
  userRole : String
  userProjects : List String
deriving DecidableEq

/-- The initial AlertsPanel state: both selects start at "all" and the user
record starts as an empty-role placeholder. -/
def apInit : APState :=
  { category := "all", projectId := "all", userRole := "", userProjects := [] }

/-- Events that update the AlertsPanel effect dependencies: the
`/api/users/me` response arriving, or one of the two selects changing. -/
inductive APEvent where
  | usersMeLoaded (role : String) (projects : List String)
  | setCategory (c : String)
  | setProject (p : String)
deriving DecidableEq

/-- One state transition of the AlertsPanel component. -/
def apStep (s : APState) : APEvent → APState
  | APEvent.usersMeLoaded role ps => { s with userRole := role, userProjects := ps }
  | APEvent.setCategory c => { s with category := c }
  | APEvent.setProject p => { s with projectId := p }

/-- The guard of the alerts-fetch effect in the source:
`if (user.role) fetchAlerts();` — the request fires only when the user's
role string is non-empty. -/
def apFetchesAlerts (s : APState) : Bool :=
  s.userRole != ""

/-- Runs the AlertsPanel component over a sequence of events. -/
def apRun (es : List APEvent) : APState :=
  es.foldl apStep apInit

/-- State of the AdminPanel component touched by `bulkUpdateUsers`. -/
structure AdminState where
  users : List DirUser
  roles : List String
  selectedUsers : List String
deriving DecidableEq

/-- The outcome of one `bulkUpdateUsers` call: the next component state, the
endpoints requested, and the alert messages shown. -/
structure BulkOutcome where
  state : AdminState
  apiCalls : List String
  alerts : List String
deriving DecidableEq

/-- The `bulkUpdateUsers` handler of the AdminPanel source: an empty
selection alerts and returns before any request; otherwise it posts to
`/bulk-update` and, on success, clears the selection and reloads the user
list, while a failed call alerts and leaves the state unchanged. -/
def bulkUpdateUsersUI (st : AdminState) (apiResult : Except String Unit)
    (refreshedUsers : List DirUser) : BulkOutcome :=
  if st.selectedUsers.isEmpty then
    { state := st, apiCalls := [], alerts := ["Please select users to update"] }
  else
    match apiResult with
    | Except.ok _ =>
      { state := { st with selectedUsers := [], users := refreshedUsers }
        apiCalls := ["/api/admin/bulk-update", "/api/admin/users"]
        alerts := ["Successfully updated " ++ toString st.selectedUsers.length ++ " users!"] }
    | Except.error e =>
      { state := st
        apiCalls := ["/api/admin/bulk-update"]
        alerts := ["Failed to bulk update users: " ++ e] }

/-- A chat message as kept in the App component's `messages` state. -/
structure ChatMsg where
  mtype : String
  content : String
deriving DecidableEq

/-- The hard-coded alert the App chat injects after some AI responses
("Sometimes add alerts for demo" in the source). -/
def demoAlert : ChatMsg :=
  { mtype := "alert"
    content := "⚠️ Delay risk detected in Package MC0A asphalt works - 3 days behind schedule" }

/-- The guard `!inputMessage.trim()` of the source: the trimmed input is
falsy exactly when the input consists only of whitespace. -/
def blankInput (s : String) : Bool :=
  s.data.all (fun c => c.isWhitespace)

/-- The `sendMessage` handler of the App source, as a function of the
current messages, the typed input, the loading flag, the chat API outcome
and the demo draw (`Math.random() > 0.7`): it appends the user message,
then the AI response plus the demo alert, or an error alert. -/
def sendMessage (msgs : List ChatMsg) (input : String) (isLoading : Bool)
    (resp : Except String String) (randGt07 : Bool) : List ChatMsg :=
  if blankInput input || isLoading then msgs
  else
    let m1 := msgs ++ [{ mtype := "user", content := input }]
    match resp with
    | Except.ok t =>
      let m2 := m1 ++ [{ mtype := "ai", content := t }]
      if randGt07 then m2 ++ [demoAlert] else m2
    | Except.error e => m1 ++ [{ mtype := "alert", content := "❌ " ++ e }]

/-- The resource descriptor of the injected demo alert: it reports on
project `infrastructure_package_mc0a` and carries no permission tags. -/
def demoAlertResource : Resource :=
  { projectId := some "infrastructure_package_mc0a"
    documentType := none
    requiredScope := none
    action := ActionV.read
    fields := [] }

/-- The `engineer` role of the spec's worked scenario. -/
def engineerRole : Role :=
  { name := "engineer"
    description := "site engineer"
    allowedDocuments := [DocType.technical_drawings, DocType.ncrs]
    dataAccess := [Scope.technical, Scope.operational]
    actions := [ActionV.read] }

/-- An active engineer who is a member of the heritage-resort project
only. -/
def u0 : User :=
  { id := "u1"
    name := "User One"
    email := "u1@diriyah.sa"
    role := engineerRole
    projects := Membership.listed ["heritage_resort"]
    active := true }

/-- The same engineer after deactivation. -/
def uInactive : User :=
  { u0 with active := false }

/-- A resource of project P2, which `u0` is not a member of. -/
def resP2 : Resource :=
  { projectId := some "p2"
    documentType := some DocType.ncrs
    requiredScope := some Scope.technical
    action := ActionV.read
    fields := [] }

/-- The allowed resource of the spec's worked scenario: project
heritage_resort, an NCR at technical scope, read action. -/
def resOk : Resource :=
  { projectId := some "heritage_resort"
    documentType := some DocType.ncrs
    requiredScope := some Scope.technical
    action := ActionV.read
    fields := [] }

/-- An engineer holding the "all" projects sentinel. -/
def uAll : User :=
  { u0 with id := "u2", email := "u2@diriyah.sa", projects := Membership.allProjects }

/-- The project axis of the visibility intersection: the resource carries no
project id the user is locked out of. -/
def projectPermits (u : User) (r : Resource) : Bool :=
  !(chkProject u r)

/-- The role axis of the visibility intersection: document type, scope and
action are all covered by the user's role. -/
def rolePermits (u : User) (r : Resource) : Bool :=
  !(chkDoc u r) && !(chkScope u r) && !(chkAction u r)

/-- A three-user directory fixture for the bulk-update scenarios. -/
def d3 : Directory :=
  { roles := ["engineer", "manager"]
    projects := ["p1"]
    users :=
      [{ username := "a", email := "a@diriyah.sa", role := "engineer", projects := ["p1"], active := true },
       { username := "b", email := "b@diriyah.sa", role := "engineer", projects := ["p1"], active := true },
       { username := "c", email := "c@diriyah.sa", role := "engineer", projects := ["p1"], active := true }] }

/-- A bulk role-change patch naming a role absent from the registry. -/
def ghostPatch : Patch :=
  { email := none, role := some "ghost", projects := none, active := none }

/-- A bulk role-change patch naming the existing `manager` role. -/
def mgrPatch : Patch :=
  { email := none, role := some "manager", projects := none, active := none }

/-- A user spec naming a role absent from the registry. -/
def ghostUser : DirUser :=
  { username := "g", email := "g@diriyah.sa", role := "ghost", projects := ["p1"], active := true }

/-- A user spec whose email collides with an existing record of `d3`. -/
def dupEmailUser : DirUser :=
  { username := "d", email := "a@diriyah.sa", role := "engineer", projects := ["p1"], active := true }

/-- An AdminPanel state with nothing selected. -/
def adminSt0 : AdminState :=
  { users := [], roles := ["engineer"], selectedUsers := [] }

/-- Helper: whenever a run of the AlertsPanel ends with a non-empty role,
either the starting state already had one or some `usersMeLoaded` event in
the run carried a non-empty role. -/
theorem apRole_from_events (es : List APEvent) :
    ∀ s : APState, (es.foldl apStep s).userRole ≠ "" →
      s.userRole ≠ "" ∨ ∃ role ps, APEvent.usersMeLoaded role ps ∈ es ∧ role ≠ "" := by
  induction es with
  | nil => intro s h; exact Or.inl h
  | cons e rest ih =>
    intro s h
    rcases ih (apStep s e) h with h1 | ⟨role, ps, hmem, hr⟩
    · cases e with
      | usersMeLoaded role ps =>
        by_cases hrole : role = ""
        · exact absurd (by simp [apStep, hrole]) h1
        · exact Or.inr ⟨role, ps, by simp, hrole⟩
      | setCategory c => exact Or.inl (by simpa [apStep] using h1)
      | setProject p => exact Or.inl (by simpa [apStep] using h1)
    · exact Or.inr ⟨role, ps, List.mem_cons_of_mem _ hmem, hr⟩

/-- Claim C5: for every user with `active = false`, every `evaluate` call
returns deny with reason `InactiveUser`, regardless of role permissions,
project memberships, or the resource's attributes. -/
theorem c5_inactive_always_denied (u : User) (r : Resource) (h : u.active = false) :
    evaluate u r = Decision.deny Reason.InactiveUser := by
  simp [evaluate, chkInactive, h]

/-- Witness for C5 at the deactivated engineer and the scenario resource. -/
theorem c5_inactive_always_denied_witness :
    uInactive.active = false ∧ evaluate uInactive resOk = Decision.deny Reason.InactiveUser :=
  ⟨by decide, c5_inactive_always_denied uInactive resOk (by decide)⟩

/-- Claim C4: `filter(user, candidates)` returns exactly the candidates that
`evaluate` allows, with field redaction applied to the allowed items, and
the surviving items keep their relative input order (stable filter, here
both as a filter-map characterization and as a sublist of the redacted
input). -/
theorem c4_filter_characterization (u : User) (cs : List Resource) :
    filterResources u cs =
      (cs.filter (fun c => isAllowed (evaluate u c))).map
        (fun c => applyRedact (redactOf (evaluate u c)) c)
    ∧ List.Sublist (filterResources u cs)
        (cs.map (fun c => applyRedact (redactOf (evaluate u c)) c)) := by
  constructor
  · induction cs with
    | nil => simp [filterResources]
    | cons c cs ih =>
      cases he : evaluate u c with
      | allow red => simp [filterResources, he, isAllowed, redactOf, ih]
      | deny rs => simp [filterResources, he, isAllowed, ih]
  · induction cs with
    | nil => simp [filterResources]
    | cons c cs ih =>
      cases he : evaluate u c with
      | allow red =>
        simpa [filterResources, he, redactOf] using List.Sublist.cons₂ (applyRedact red c) ih
      | deny rs =>
        simpa [filterResources, he] using
          List.Sublist.cons (applyRedact (redactOf (evaluate u c)) c) ih

/-- Claim C6: `createUser` fails with `RoleNotFound` when the spec's role is
not a registered role name, fails with `DuplicateEmail` when the email
collides with an existing record, and in either failure case the directory
is returned unchanged (no user record created). -/
theorem c6_createUser_errors (s : DirUser) (d : Directory) :
    (s.role ∉ d.roles → createUser s d = (d, some DirErr.RoleNotFound))
    ∧ (s.role ∈ d.roles → d.users.any (fun u => u.email == s.email) = true →
        createUser s d = (d, some DirErr.DuplicateEmail)) := by
  constructor
  · intro h
    simp [createUser, h]
  · intro h1 h2
    simp [createUser, h1, h2]

/-- Witness for C6: an unknown role and a colliding email against the
three-user fixture directory. -/
theorem c6_createUser_errors_witness :
    createUser ghostUser d3 = (d3, some DirErr.RoleNotFound)
    ∧ createUser dupEmailUser d3 = (d3, some DirErr.DuplicateEmail) :=
  ⟨(c6_createUser_errors ghostUser d3).1 (by decide),
   (c6_createUser_errors dupEmailUser d3).2 (by decide) (by decide)⟩

/-- Claim C8: the Permission Catalog is the fixed nine document types, five
data-access scopes and five actions, and each validator returns true on
exactly the members of its catalog — every unknown tag is invalid. -/
theorem c8_catalog_exact (t : String) :
    (isValidDocumentType t = true ↔
      (t = "boq" ∨ t = "schedules" ∨ t = "contracts" ∨ t = "rfis" ∨ t = "ncrs" ∨
       t = "moms" ∨ t = "technical_drawings" ∨ t = "financials" ∨ t = "quotes"))
    ∧ (isValidScope t = true ↔
      (t = "all" ∨ t = "operational" ∨ t = "technical" ∨ t = "commercial" ∨ t = "financial"))
    ∧ (isValidAction t = true ↔
      (t = "read" ∨ t = "write" ∨ t = "edit" ∨ t = "delete" ∨ t = "admin")) := by
  refine ⟨?_, ?_, ?_⟩ <;>
    simp [isValidDocumentType, isValidScope, isValidAction,
      documentTypes, dataAccessTypes, permissionTypes]

/-- Claim C10: calling `bulkUpdateUsers` with an empty selection performs no
API request and leaves the component state unchanged — the handler returns
right after showing the selection alert. -/
theorem c10_empty_selection_noop (st : AdminState) (apiResult : Except String Unit)
    (ru : List DirUser) (h : st.selectedUsers = []) :
    bulkUpdateUsersUI st apiResult ru =
      { state := st, apiCalls := [], alerts := ["Please select users to update"] } := by
  simp [bulkUpdateUsersUI, h]

/-- Witness for C10 at a concrete empty-selection state. -/
theorem c10_empty_selection_noop_witness :
    bulkUpdateUsersUI adminSt0 (Except.ok ()) [] =
      { state := adminSt0, apiCalls := [], alerts := ["Please select users to update"] } :=
  c10_empty_selection_noop adminSt0 (Except.ok ()) [] rfl

/-- Claim C9: the AlertsPanel never issues an alerts fetch before the user
record has been loaded with a non-empty role: the initial render does not
fetch, and every run in which the fetch guard fires contains a
`usersMeLoaded` event carrying a non-empty role. -/
theorem c9_no_fetch_before_role :
    apFetchesAlerts apInit = false
    ∧ ∀ es : List APEvent, apFetchesAlerts (apRun es) = true →
        ∃ role ps, APEvent.usersMeLoaded role ps ∈ es ∧ role ≠ "" := by
  constructor
  · rfl
  · intro es h
    have hr : (es.foldl apStep apInit).userRole ≠ "" := by
      simpa [apFetchesAlerts, apRun] using h
    rcases apRole_from_events es apInit hr with h1 | h2
    · simp [apInit] at h1
    · exact h2

/-- Witness for C9: a run consisting of one non-empty user load fires the
fetch guard. -/
theorem c9_no_fetch_before_role_witness :
    apFetchesAlerts (apRun [APEvent.usersMeLoaded "engineer" ["p1"]]) = true
    ∧ ∃ role ps,
        APEvent.usersMeLoaded role ps ∈ [APEvent.usersMeLoaded "engineer" ["p1"]] ∧ role ≠ "" :=
  ⟨by decide, c9_no_fetch_before_role.2 [APEvent.usersMeLoaded "engineer" ["p1"]] (by decide)⟩

/-- Counterexample to C1: the demo-alert injection in `App.sendMessage`
delivers the hard-coded Package-MC0A alert to a user whose only project is
heritage_resort — the evaluator denies that alert's resource descriptor
with `ProjectNotAccessible`, so a code path delivers an item outside the
role-and-projects intersection. -/
theorem c1_demo_alert_bypasses_filter :
    demoAlert ∈ sendMessage [] "What is the project status" false (Except.ok "All on track") true
    ∧ evaluate u0 demoAlertResource = Decision.deny Reason.ProjectNotAccessible
    ∧ u0.active = true := by
  decide

/-- Claim C1 (amended): for active users the evaluator allows exactly the
intersection of the project axis and the role axis, so content served
through `filter` stays inside the intersection; but the demo-alert path of
`App.sendMessage` appends the fixed alert for every non-blank input and
every user, without consulting the evaluator. -/
theorem c1_filter_intersection_amended :
    (∀ (u : User) (r : Resource), u.active = true →
        isAllowed (evaluate u r) = (projectPermits u r && rolePermits u r))
    ∧ ∀ (msgs : List ChatMsg) (input t : String), blankInput input = false →
        demoAlert ∈ sendMessage msgs input false (Except.ok t) true := by
  constructor
  · intro u r h
    have h1 : chkInactive u = false := by simp [chkInactive, h]
    cases h2 : chkProject u r <;> cases h3 : chkDoc u r <;> cases h4 : chkScope u r <;>
      cases h5 : chkAction u r <;>
        simp [evaluate, h1, h2, h3, h4, h5, isAllowed, projectPermits, rolePermits]
  · intro msgs input t h
    simp [sendMessage, h]

/-- Witness for C1 (amended): the intersection form at the engineer and the
scenario resource, and the demo alert delivered on a non-blank input. -/
theorem c1_filter_intersection_amended_witness :
    isAllowed (evaluate u0 resOk) = (projectPermits u0 resOk && rolePermits u0 resOk)
    ∧ demoAlert ∈ sendMessage [] "hello" false (Except.ok "hi") true :=
  ⟨c1_filter_intersection_amended.1 u0 resOk (by decide),
   c1_filter_intersection_amended.2 [] "hello" "hi" (by decide)⟩

/-- Counterexample to C2: for an inactive user whose projects do not
contain the resource's project id, the decision is `InactiveUser`, not
`ProjectNotAccessible`, so the stated biconditional fails when quantified
over every user. -/
theorem c2_inactive_user_counterexample :
    uInactive.projects = Membership.listed ["heritage_resort"]
    ∧ resP2.projectId = some "p2"
    ∧ ¬ ("p2" ∈ (["heritage_resort"] : List String))
    ∧ evaluate uInactive resP2 ≠ Decision.deny Reason.ProjectNotAccessible
    ∧ evaluate uInactive resP2 = Decision.deny Reason.InactiveUser := by
  decide

/-- Claim C2 (amended): for every active user and every resource carrying a
project id, the "all" sentinel makes the project check pass for every
project id (the evaluator never denies with `ProjectNotAccessible`), and
for listed membership the decision is deny with `ProjectNotAccessible`
exactly when the membership does not contain the resource's project id. -/
theorem c2_project_check_active (u : User) (r : Resource) (pid : String)
    (hact : u.active = true) (hpid : r.projectId = some pid) :
    (u.projects = Membership.allProjects →
        evaluate u r ≠ Decision.deny Reason.ProjectNotAccessible)
    ∧ ∀ ps, u.projects = Membership.listed ps →
        ((evaluate u r = Decision.deny Reason.ProjectNotAccessible) ↔ pid ∉ ps) := by
  have h1 : chkInactive u = false := by simp [chkInactive, hact]
  constructor
  · intro hall
    have hp : chkProject u r = false := by simp [chkProject, hpid, hall]
    cases h3 : chkDoc u r <;> cases h4 : chkScope u r <;> cases h5 : chkAction u r <;>
      simp [evaluate, h1, hp, h3, h4, h5]
  · intro ps hps
    by_cases hmem : pid ∈ ps
    · have hp : chkProject u r = false := by simp [chkProject, hpid, hps, hmem]
      cases h3 : chkDoc u r <;> cases h4 : chkScope u r <;> cases h5 : chkAction u r <;>
        simp [evaluate, h1, hp, h3, h4, h5, hmem]
    · have hp : chkProject u r = true := by simp [chkProject, hpid, hps, hmem]
      simp [evaluate, h1, hp, hmem]

/-- Witness for C2 (amended): the "all" sentinel user is never
project-denied on the scenario resource, and the listed engineer is denied
on project p2 exactly because p2 is not among their projects. -/
theorem c2_project_check_active_witness :
    (evaluate uAll resOk ≠ Decision.deny Reason.ProjectNotAccessible)
    ∧ ((evaluate u0 resP2 = Decision.deny Reason.ProjectNotAccessible) ↔
        "p2" ∉ (["heritage_resort"] : List String)) :=
  ⟨(c2_project_check_active uAll resOk "heritage_resort" (by decide) rfl).1 rfl,
   (c2_project_check_active u0 resP2 "p2" (by decide) rfl).2 ["heritage_resort"] rfl⟩

/-- Claim C3: on every input violating more than one of the five checks,
the evaluator returns deny with the reason of the first failing check in
the fixed order InactiveUser, ProjectNotAccessible, DocumentTypeForbidden,
ScopeForbidden, ActionForbidden. -/
theorem c3_first_failing_reason (u : User) (r : Resource)
    (h : 2 ≤ (checksList u r).count true) :
    (firstFail u r).isSome = true
    ∧ evaluate u r = Decision.deny ((firstFail u r).getD Reason.InactiveUser) := by
  cases h1 : chkInactive u <;> cases h2 : chkProject u r <;> cases h3 : chkDoc u r <;>
    cases h4 : chkScope u r <;> cases h5 : chkAction u r <;>
      simp_all [evaluate, checksList, reasonsList, firstFail]

/-- Witness for C3: the deactivated engineer on the p2 resource violates
both the inactivity and the project checks, and the returned reason is the
first of those. -/
theorem c3_first_failing_reason_witness :
    2 ≤ (checksList uInactive resP2).count true
    ∧ (firstFail uInactive resP2).isSome = true
    ∧ evaluate uInactive resP2 =
        Decision.deny ((firstFail uInactive resP2).getD Reason.InactiveUser) :=
  ⟨by decide, (c3_first_failing_reason uInactive resP2 (by decide)).1,
   (c3_first_failing_reason uInactive resP2 (by decide)).2⟩

/-- Counterexample to C7's scenario: a bulk role-change on three users with
a shared patch naming a missing role fails for every id with
`RoleNotFound` — three failing entries, not one — and persists nothing. -/
theorem c7_shared_missing_role_fails_all :
    bulkUpdate ["a", "b", "c"] ghostPatch d3 =
      (d3, [("a", some DirErr.RoleNotFound), ("b", some DirErr.RoleNotFound),
            ("c", some DirErr.RoleNotFound)])
    ∧ (bulkUpdate ["a", "b", "c"] ghostPatch d3).2.countP
        (fun o => o.2 == some DirErr.RoleNotFound) = 3 := by
  decide

/-- Claim C7 (amended): `bulkUpdate` applies `updateUser` independently per
id and returns a per-id outcome list; a failing id leaves the directory
unchanged at its step and neither undoes nor prevents the other ids'
committed updates; in a 3-user bulk role-change where one target user id
does not exist, that entry reports `NotFound` and the other two role
changes are persisted (a shared missing role name instead fails every
entry). -/
theorem c7_bulk_per_id_amended :
    (∀ (ids : List String) (p : Patch) (d : Directory),
        (bulkUpdate ids p d).2.map Prod.fst = ids)
    ∧ (∀ (ids : List String) (p : Patch) (d : Directory),
        (bulkUpdate ids p d).1 = ids.foldl (fun s i => (updateUser i p s).1) d)
    ∧ (∀ (i : String) (p : Patch) (d : Directory),
        (updateUser i p d).2.isSome = true → (updateUser i p d).1 = d)
    ∧ ((bulkUpdate ["a", "zz", "c"] mgrPatch d3).2 =
          [("a", none), ("zz", some DirErr.NotFound), ("c", none)]
        ∧ (bulkUpdate ["a", "zz", "c"] mgrPatch d3).1.users.map (fun u => u.role) =
          ["manager", "engineer", "manager"]) := by
  refine ⟨?_, ?_, ?_, by decide⟩
  · intro ids p d
    induction ids generalizing d with
    | nil => simp [bulkUpdate]
    | cons i rest ih => simp [bulkUpdate, ih]
  · intro ids p d
    induction ids generalizing d with
    | nil => simp [bulkUpdate]
    | cons i rest ih => simp [bulkUpdate, ih]
  · intro i p d
    unfold updateUser
    split
    · intro _; rfl
    · split
      · intro _; rfl
      · intro h; simp at h

/-- Witness for C7 (amended): a failing update on the unknown id leaves the
fixture directory unchanged. -/
theorem c7_bulk_per_id_amended_witness :
    (updateUser "zz" mgrPatch d3).2.isSome = true ∧ (updateUser "zz" mgrPatch d3).1 = d3 :=
  ⟨by decide, c7_bulk_per_id_amended.2.2.1 "zz" mgrPatch d3 (by decide)⟩

end Diriyah
